import Mathlib

/-
Shallow embedding of the Playwright page-object layer:
BasePage (src/pages/BasePage.js), HomePage and LoginPage
(src/pages/HomePage.js, src/pages/LoginPage.js), the authenticatedPage
fixture (src/fixtures/fixtures.js), and the configuration constants
(src/utils/config.js).

Modelling conventions.  Each async method is a Lean function over an
oracle record whose fields give the outcomes of the Playwright
primitive calls the method awaits (locator resolution in Playwright is
synchronous and infallible, so a resolution chain plus its awaited
action is one oracle field).  A JS exception is an `Except.error`
carrying the message string; `try / catch` becomes a `match` on the
attempted computation; `promise.catch(f)` becomes `jsCatchBool`.
Where a claim concerns execution order or field effects, the function
additionally returns the list of steps executed or the field state.
-/

namespace PW

/-- A JS error value, modelled by its message string (the code rethrows
errors unchanged, so the message identifies the error). -/
structure Err where
  msg : String
deriving Repr, DecidableEq

/- Timeout tiers from src/utils/config.js, TIMEOUTS object. -/
namespace Config

def TIMEOUTS_SHORT : Nat := 2000

def TIMEOUTS_MEDIUM : Nat := 5000

def TIMEOUTS_LONG : Nat := 10000

def TIMEOUTS_NAVIGATION : Nat := 8000

def TIMEOUTS_ELEMENT : Nat := 3000

def DELAYS_SHORT_DELAY : Nat := 500

def DELAYS_MEDIUM_DELAY : Nat := 1000

end Config

/-- JS short-circuit default on a numeric option field, as in the source
line computing the timeout with the or-operator: an absent field and 0
are falsy, so both fall back to the default. -/
def jsOrTimeout : Option Nat → Nat → Nat
  | none, d => d
  | some t, d => if t = 0 then d else t

/-- Result of attaching a catch handler returning `b` to a promise of a
Bool, as in the source pattern of calling isVisible and catching to
false. -/
def jsCatchBool (r : Except Err Bool) (b : Bool) : Bool :=
  match r with
  | .ok v => v
  | .error _ => b

/-- The JS String.prototype.trim builtin: strips whitespace from both
ends of the string. -/
def jsTrim (s : String) : String :=
  String.mk
    (((s.data.dropWhile Char.isWhitespace).reverse.dropWhile Char.isWhitespace).reverse)

/-- Opaque Playwright page handle; only its identity matters to this
layer. -/
structure PageHandle where
  id : Nat
deriving Repr, DecidableEq

/-- A constructed page object: it stores exactly the page handle it was
given (this.page = page in the BasePage constructor). -/
structure BasePageObj where
  page : PageHandle
deriving Repr, DecidableEq

/-- BasePage constructor (BasePage.js lines 18-24): throws when the page
argument is missing or null (falsy), otherwise stores the handle.
The argument is `Option PageHandle`: `none` is null/undefined. -/
def BasePage.mkObj : Option PageHandle → Except Err BasePageObj
  | none => Except.error ⟨"Page object is required to initialize BasePage"⟩
  | some p => Except.ok ⟨p⟩

/-- LoginPage constructor: calls super(page) and then only logs. -/
def LoginPage.mkObj (page : Option PageHandle) : Except Err BasePageObj :=
  BasePage.mkObj page

/-- HomePage constructor: calls super(page) and then only logs. -/
def HomePage.mkObj (page : Option PageHandle) : Except Err BasePageObj :=
  BasePage.mkObj page

/-- Oracle for the visibility primitives used by BasePage.isVisible:
outcome of resolving by role / text / testId and awaiting isVisible
with the given timeout. -/
structure VisPrims where
  roleVisible : String → Nat → Except Err Bool
  textVisible : String → Nat → Except Err Bool
  testIdVisible : String → Nat → Except Err Bool

/-- BasePage.isVisible (BasePage.js lines 193-218).  Inside the try: a
switch over the locator type builds the locator, the default branch
throws the unknown-locator-type error, and the visibility query runs
with the SHORT timeout.  The catch swallows every error (including the
default-branch throw) and returns false. -/
def BasePage.isVisible (env : VisPrims) (locatorType locatorValue : String) :
    Except Err Bool :=
  let attempt : Except Err Bool :=
    if locatorType = "role" then env.roleVisible locatorValue Config.TIMEOUTS_SHORT
    else if locatorType = "text" then env.textVisible locatorValue Config.TIMEOUTS_SHORT
    else if locatorType = "testId" then env.testIdVisible locatorValue Config.TIMEOUTS_SHORT
    else Except.error ⟨"Unknown locator type: " ++ locatorType⟩
  match attempt with
  | .ok b => Except.ok b
  | .error _ => Except.ok false

/-- Oracle for the waitFor primitives used by BasePage.waitForVisibility:
outcome of waiting for the visible state with the given timeout. -/
structure WaitPrims where
  roleWait : String → Nat → Except Err Unit
  textWait : String → Nat → Except Err Unit
  testIdWait : String → Nat → Except Err Unit

/-- BasePage.waitForVisibility (BasePage.js lines 228-252).  Same switch
as isVisible (the default branch throws the unknown-locator-type
error), then waits for the visible state; the catch logs and rethrows
the error unchanged.  The JS timeout parameter defaults to
TIMEOUTS.ELEMENT at call sites that omit it. -/
def BasePage.waitForVisibility (env : WaitPrims) (locatorType locatorValue : String)
    (timeout : Nat) : Except Err Unit :=
  let attempt : Except Err Unit :=
    if locatorType = "role" then env.roleWait locatorValue timeout
    else if locatorType = "text" then env.textWait locatorValue timeout
    else if locatorType = "testId" then env.testIdWait locatorValue timeout
    else Except.error ⟨"Unknown locator type: " ++ locatorType⟩
  match attempt with
  | .ok _ => Except.ok ()
  | .error e => Except.error e

/-- Oracle for the product-count primitive of HomePage.getProductCount:
outcome of awaiting count() on the product-items locator. -/
structure CountPrims where
  productsCount : Except Err Nat

/-- HomePage.getProductCount (HomePage.js lines 119-129): returns the
count; the catch logs and returns 0 on any failure. -/
def HomePage.getProductCount (env : CountPrims) : Except Err Nat :=
  match env.productsCount with
  | .ok n => Except.ok n
  | .error _ => Except.ok 0

/-- Oracle for the alert-element primitives of LoginPage.getErrorMessage:
visibility of the first error-styled element (with the given timeout)
and its textContent (which JS may report as null). -/
structure ErrAlertPrims where
  alertVisible : Nat → Except Err Bool
  alertText : Except Err (Option String)

/-- LoginPage.getErrorMessage (LoginPage.js lines 534-550): checks
visibility with the SHORT timeout and an inline catch to false; when
visible returns the textContent (possibly null), otherwise null; the
outer catch returns null. -/
def LoginPage.getErrorMessage (env : ErrAlertPrims) : Except Err (Option String) :=
  let isVis : Bool := jsCatchBool (env.alertVisible Config.TIMEOUTS_SHORT) false
  if isVis then
    match env.alertText with
    | .ok t => Except.ok t
    | .error _ => Except.ok none
  else
    Except.ok none

/-- LoginPage.isErrorDisplayed (LoginPage.js lines 556-564): returns
whether getErrorMessage gave a non-null message whose trimmed length is
positive; the catch returns false. -/
def LoginPage.isErrorDisplayed (env : ErrAlertPrims) : Except Err Bool :=
  match LoginPage.getErrorMessage env with
  | .ok none => Except.ok false
  | .ok (some s) => Except.ok (decide (0 < (jsTrim s).length))
  | .error _ => Except.ok false

/-- Oracle for the two fill attempts of BasePage.fillPassword: the
label-filtered password-input fill and the getByPlaceholder fill, each
a function of the name pattern and the value. -/
structure FillPwPrims where
  labelFill : String → String → Except Err Unit
  placeholderFill : String → String → Except Err Unit

/-- BasePage.fillPassword (BasePage.js lines 153-168): tries the
label-associated password input first; its catch tries the placeholder
resolution; if that also fails, the fallback's error is rethrown. -/
def BasePage.fillPassword (env : FillPwPrims) (nm value : String) : Except Err Unit :=
  match env.labelFill nm value with
  | .ok _ => Except.ok ()
  | .error _ =>
    match env.placeholderFill nm value with
    | .ok _ => Except.ok ()
    | .error fe => Except.error fe

/-- Values currently held by the email and password fields of the login
form (none = untouched). -/
structure LoginState where
  emailField : Option String
  passwordField : Option String
deriving Repr, DecidableEq

/-- The three steps composed by LoginPage.login, used to record which
steps a run executed. -/
inductive LoginStep where
  | enterEmail
  | enterPassword
  | clickLoginButton
deriving Repr, DecidableEq

/-- Oracle for the primitives of the login flow: outcome of filling the
email field, filling the password field, and clicking the login
button. -/
structure LoginPrims where
  emailFill : String → Except Err Unit
  passwordFill : String → Except Err Unit
  loginClick : Except Err Unit

/-- LoginPage.enterEmail (LoginPage.js lines 465-474): fills the email
field; on success the field holds the value; the catch rethrows. -/
def LoginPage.enterEmail (env : LoginPrims) (email : String) (s : LoginState) :
    Except Err Unit × LoginState :=
  match env.emailFill email with
  | .ok _ => (Except.ok (), ⟨some email, s.passwordField⟩)
  | .error e => (Except.error e, s)

/-- LoginPage.enterPassword (LoginPage.js lines 482-491): fills the
password field; on success the field holds the value; the catch
rethrows. -/
def LoginPage.enterPassword (env : LoginPrims) (password : String) (s : LoginState) :
    Except Err Unit × LoginState :=
  match env.passwordFill password with
  | .ok _ => (Except.ok (), ⟨s.emailField, some password⟩)
  | .error e => (Except.error e, s)

/-- LoginPage.clickLoginButton (LoginPage.js lines 498-508): clicks the
login button (no field effect), then a fixed settle delay; the catch
rethrows. -/
def LoginPage.clickLoginButton (env : LoginPrims) (s : LoginState) :
    Except Err Unit × LoginState :=
  match env.loginClick with
  | .ok _ => (Except.ok (), s)
  | .error e => (Except.error e, s)

/-- LoginPage.login (LoginPage.js lines 517-528): awaits enterEmail,
then enterPassword, then clickLoginButton in that order inside one try;
the catch logs and rethrows the failing step's error unchanged.  The
returned list records the steps that were executed, in order. -/
def LoginPage.login (env : LoginPrims) (email password : String) (s : LoginState) :
    Except Err Unit × LoginState × List LoginStep :=
  match LoginPage.enterEmail env email s with
  | (.error e, s1) => (Except.error e, s1, [LoginStep.enterEmail])
  | (.ok _, s1) =>
    match LoginPage.enterPassword env password s1 with
    | (.error e, s2) => (Except.error e, s2, [LoginStep.enterEmail, LoginStep.enterPassword])
    | (.ok _, s2) =>
      match LoginPage.clickLoginButton env s2 with
      | (.error e, s3) =>
        (Except.error e, s3,
          [LoginStep.enterEmail, LoginStep.enterPassword, LoginStep.clickLoginButton])
      | (.ok _, s3) =>
        (Except.ok (), s3,
          [LoginStep.enterEmail, LoginStep.enterPassword, LoginStep.clickLoginButton])

/-- Log categories of src/utils/logger.js used by the modelled methods. -/
inductive LogLevel where
  | info
  | pass
  | warn
  | error
  | debug
deriving Repr, DecidableEq

/-- One emitted log entry. -/
structure LogEvent where
  level : LogLevel
  msg : String
deriving Repr, DecidableEq

/-- Oracle for the primitives of HomePage.addProductToCart: the click on
the product text locator, the visibility probe on the add-to-cart
button, and the click on that button, each taking the timeout used. -/
structure CartPrims where
  productClick : String → Nat → Except Err Unit
  addBtnVisible : Nat → Except Err Bool
  addBtnClick : Nat → Except Err Unit

/-- HomePage.clickProduct (HomePage.js lines 137-148): clicks the first
text match with the ELEMENT timeout, then a settle delay; the catch
rethrows. -/
def HomePage.clickProduct (env : CartPrims) (productName : String) : Except Err Unit :=
  match env.productClick productName Config.TIMEOUTS_ELEMENT with
  | .ok _ => Except.ok ()
  | .error e => Except.error e

/-- HomePage.addProductToCart (HomePage.js lines 175-197): logs the start,
awaits clickProduct, probes the add-to-cart button's visibility with
the ELEMENT timeout and an inline catch to false; when visible it
clicks the button and logs success, otherwise it logs a warning and
returns; the outer catch logs an error and rethrows.  The model also
returns the log entries emitted by this method itself. -/
def HomePage.addProductToCart (env : CartPrims) (productName : String) :
    Except Err Unit × List LogEvent :=
  let start : LogEvent := ⟨LogLevel.info, "Adding product to cart: " ++ productName⟩
  match HomePage.clickProduct env productName with
  | .error e =>
    (Except.error e,
      [start, ⟨LogLevel.error, "Failed to add product to cart: " ++ productName⟩])
  | .ok _ =>
    let buttonExists : Bool := jsCatchBool (env.addBtnVisible Config.TIMEOUTS_ELEMENT) false
    if buttonExists then
      match env.addBtnClick Config.TIMEOUTS_ELEMENT with
      | .ok _ =>
        (Except.ok (), [start, ⟨LogLevel.pass, "Added product to cart: " ++ productName⟩])
      | .error e =>
        (Except.error e,
          [start, ⟨LogLevel.error, "Failed to add product to cart: " ++ productName⟩])
    else
      (Except.ok (),
        [start, ⟨LogLevel.warn, "Add to cart button not found for: " ++ productName⟩])

/-- Oracle for the steps of the authenticatedPage fixture: outcome of
navigateToLogin, the Boolean result of isLoginFormDisplayed (that
method swallows failures and returns a Bool), the outcome of the login
flow, and the Boolean result of verifyLoginSuccess (also swallowing). -/
structure FixturePrims where
  navigateToLogin : Except Err Unit
  loginFormDisplayed : Bool
  loginFlow : Except Err Unit
  verifyLoginSuccess : Bool

/-- Stages of the authenticatedPage fixture, used to record which stages
a run executed. -/
inductive FixtureStep where
  | navigate
  | checkLoginForm
  | performLogin
  | verify
deriving Repr, DecidableEq

/-- The bundle yielded by the authenticatedPage fixture: the page handle
plus the HomePage and LoginPage objects built on it. -/
structure AuthBundle where
  page : PageHandle
  homePage : BasePageObj
  loginPage : BasePageObj
deriving Repr, DecidableEq

/-- The authenticatedPage fixture (fixtures.js lines 737-777): constructs
a LoginPage and a HomePage on the runner's page, navigates to the login
page, checks isLoginFormDisplayed; when the form is visible it runs
login, then verifyLoginSuccess, throwing the verification-failed error
when that returns false; when the form is not visible it skips login;
on success it yields the bundle of page, homePage and loginPage.  The
catch logs and rethrows.  The model also returns the stages executed. -/
def fixtures.authenticatedPage (env : FixturePrims) (page : PageHandle) :
    Except Err AuthBundle × List FixtureStep :=
  match LoginPage.mkObj (some page), HomePage.mkObj (some page) with
  | .error e, _ => (Except.error e, [])
  | .ok _, .error e => (Except.error e, [])
  | .ok lp, .ok hp =>
    match env.navigateToLogin with
    | .error e => (Except.error e, [FixtureStep.navigate])
    | .ok _ =>
      if env.loginFormDisplayed then
        match env.loginFlow with
        | .error e =>
          (Except.error e,
            [FixtureStep.navigate, FixtureStep.checkLoginForm, FixtureStep.performLogin])
        | .ok _ =>
          if env.verifyLoginSuccess then
            (Except.ok ⟨page, hp, lp⟩,
              [FixtureStep.navigate, FixtureStep.checkLoginForm,
                FixtureStep.performLogin, FixtureStep.verify])
          else
            (Except.error ⟨"Login verification failed"⟩,
              [FixtureStep.navigate, FixtureStep.checkLoginForm,
                FixtureStep.performLogin, FixtureStep.verify])
      else
        (Except.ok ⟨page, hp, lp⟩, [FixtureStep.navigate, FixtureStep.checkLoginForm])

/-- The options object passed to goto / the click methods; only its
timeout property matters to the modelled behaviour (absent =
undefined). -/
structure CallOptions where
  timeout : Option Nat
deriving Repr, DecidableEq

/-- Effective timeout of BasePage.goto (BasePage.js line 36): the
caller's timeout option defaulted with the or-operator to the
NAVIGATION tier; goto passes exactly this value to page.goto. -/
def BasePage.gotoTimeout (options : CallOptions) : Nat :=
  jsOrTimeout options.timeout Config.TIMEOUTS_NAVIGATION

/-- Timeout property of the object literal the click methods build for
the click call: the computed timeout shorthand first, then the spread
of the caller's options, whose own timeout property (when present)
overrides the computed one. -/
def spreadTimeout (computed : Nat) (options : CallOptions) : Nat :=
  match options.timeout with
  | some t => t
  | none => computed

/-- Effective timeout the click methods (BasePage.js lines 69-124) hand
to the underlying click: the or-defaulted ELEMENT-tier timeout,
re-overridden by the spread of the caller's options. -/
def BasePage.clickTimeout (options : CallOptions) : Nat :=
  spreadTimeout (jsOrTimeout options.timeout Config.TIMEOUTS_ELEMENT) options

/-- Oracle for page.goto: outcome (a response or null) as a function of
the url and the timeout actually passed. -/
structure NavPrims where
  pageGoto : String → Nat → Except Err (Option Unit)

/-- BasePage.goto (BasePage.js lines 34-45): computes the effective
timeout with the or-operator default and passes it to page.goto; the
catch logs and rethrows. -/
def BasePage.goto (env : NavPrims) (url : String) (options : CallOptions) :
    Except Err (Option Unit) :=
  match env.pageGoto url (BasePage.gotoTimeout options) with
  | .ok r => Except.ok r
  | .error e => Except.error e

/-- Oracle for the click primitives of the three click methods, each a
function of the locator arguments and the timeout property of the
options object actually handed to click. -/
structure ClickPrims where
  roleClick : String → String → Nat → Except Err Unit
  textClick : String → Nat → Except Err Unit
  testIdClick : String → Nat → Except Err Unit

/-- BasePage.clickByRole (BasePage.js lines 69-86), string-name branch:
resolves by role and name and clicks with the merged options (computed
timeout shorthand, then the spread of the caller's options); the catch
rethrows. -/
def BasePage.clickByRole (env : ClickPrims) (role nm : String) (options : CallOptions) :
    Except Err Unit :=
  match env.roleClick role nm (BasePage.clickTimeout options) with
  | .ok _ => Except.ok ()
  | .error e => Except.error e

/-- BasePage.clickByText (BasePage.js lines 95-105): resolves by text,
clicks the first match with the merged options; the catch rethrows. -/
def BasePage.clickByText (env : ClickPrims) (text : String) (options : CallOptions) :
    Except Err Unit :=
  match env.textClick text (BasePage.clickTimeout options) with
  | .ok _ => Except.ok ()
  | .error e => Except.error e

/-- BasePage.clickByTestId (BasePage.js lines 114-124): resolves by test
id and clicks with the merged options; the catch rethrows. -/
def BasePage.clickByTestId (env : ClickPrims) (testId : String) (options : CallOptions) :
    Except Err Unit :=
  match env.testIdClick testId (BasePage.clickTimeout options) with
  | .ok _ => Except.ok ()
  | .error e => Except.error e

/-- An outcome of a Boolean visibility primitive consistent with the
target element being absent from the page: the automation capability
reports not-visible, or the probe fails (for example by timeout). -/
def absentBoolOutcome (r : Except Err Bool) : Prop :=
  r = Except.ok false ∨ ∃ e, r = Except.error e

/-- An outcome of the count primitive consistent with the target elements
being absent: a zero count, or a failing count query. -/
def absentCountOutcome (r : Except Err Nat) : Prop :=
  r = Except.ok 0 ∨ ∃ e, r = Except.error e

/-- Visibility oracle of a page with no matching elements: every probe
reports not visible. -/
def noElementVis : VisPrims :=
  ⟨fun _ _ => Except.ok false, fun _ _ => Except.ok false, fun _ _ => Except.ok false⟩

/-- Count oracle of a page whose product-items query fails. -/
def failingCount : CountPrims :=
  ⟨Except.error ⟨"locator.count: page closed"⟩⟩

/-- Alert oracle of a page with no error-styled element. -/
def noAlertEnv : ErrAlertPrims :=
  ⟨fun _ => Except.ok false, Except.error ⟨"no element"⟩⟩

/-- Claim C1, counterexample.  The claim says a call to isVisible with a
locator kind outside role / text / testId fails with the
unknown-locator-type error raised to the caller; on the code the throw
sits inside the try whose catch swallows every error, so the concrete
call below returns the Boolean false and no error reaches the caller. -/
theorem claim_C1_counterexample :
    BasePage.isVisible noElementVis "css" "button" = Except.ok false := rfl

/-- Claim C1, amended.  For every call to BasePage.isVisible with a
locatorKind outside role / text / testId, the internally raised
unknown-locator-type error is swallowed by the method's tolerant catch
and the call returns the Boolean false to the caller; no error
propagates. -/
theorem claim_C1_amended (env : VisPrims) (lt lv : String)
    (h1 : lt ≠ "role") (h2 : lt ≠ "text") (h3 : lt ≠ "testId") :
    BasePage.isVisible env lt lv = Except.ok false := by
  unfold BasePage.isVisible
  simp [h1, h2, h3]

/-- Claim C1 amended, witness at a concrete unknown locator kind. -/
theorem claim_C1_amended_witness :
    BasePage.isVisible noElementVis "xpath" "b" = Except.ok false :=
  claim_C1_amended noElementVis "xpath" "b" (by decide) (by decide) (by decide)

/-- Claim C2: the tolerant probes never raise, and against a page state
where the target element is absent they return their conservative
defaults: isVisible returns false, getProductCount returns 0,
getErrorMessage returns null. -/
theorem claim_C2 :
    (∀ (venv : VisPrims) (lt lv : String),
       absentBoolOutcome (venv.roleVisible lv Config.TIMEOUTS_SHORT) →
       absentBoolOutcome (venv.textVisible lv Config.TIMEOUTS_SHORT) →
       absentBoolOutcome (venv.testIdVisible lv Config.TIMEOUTS_SHORT) →
       BasePage.isVisible venv lt lv = Except.ok false)
  ∧ (∀ cenv : CountPrims, absentCountOutcome cenv.productsCount →
       HomePage.getProductCount cenv = Except.ok 0)
  ∧ (∀ eenv : ErrAlertPrims, absentBoolOutcome (eenv.alertVisible Config.TIMEOUTS_SHORT) →
       LoginPage.getErrorMessage eenv = Except.ok none)
  ∧ (∀ (venv : VisPrims) (lt lv : String), ∃ b,
       BasePage.isVisible venv lt lv = Except.ok b)
  ∧ (∀ cenv : CountPrims, ∃ n, HomePage.getProductCount cenv = Except.ok n)
  ∧ (∀ eenv : ErrAlertPrims, ∃ m, LoginPage.getErrorMessage eenv = Except.ok m) := by
  refine ⟨?_, ?_, ?_, ?_, ?_, ?_⟩
  · intro venv lt lv hr ht hti
    unfold BasePage.isVisible
    split_ifs with h1 h2 h3
    · rcases hr with h | ⟨e, h⟩ <;> simp [h]
    · rcases ht with h | ⟨e, h⟩ <;> simp [h]
    · rcases hti with h | ⟨e, h⟩ <;> simp [h]
    · rfl
  · intro cenv hc
    unfold HomePage.getProductCount
    rcases hc with h | ⟨e, h⟩ <;> simp [h]
  · intro eenv he
    unfold LoginPage.getErrorMessage
    rcases he with h | ⟨e, h⟩ <;> simp [jsCatchBool, h]
  · intro venv lt lv
    unfold BasePage.isVisible
    split_ifs with h1 h2 h3
    · cases h : venv.roleVisible lv Config.TIMEOUTS_SHORT with
      | ok b => exact ⟨b, by simp [h]⟩
      | error e => exact ⟨false, by simp [h]⟩
    · cases h : venv.textVisible lv Config.TIMEOUTS_SHORT with
      | ok b => exact ⟨b, by simp [h]⟩
      | error e => exact ⟨false, by simp [h]⟩
    · cases h : venv.testIdVisible lv Config.TIMEOUTS_SHORT with
      | ok b => exact ⟨b, by simp [h]⟩
      | error e => exact ⟨false, by simp [h]⟩
    · exact ⟨false, rfl⟩
  · intro cenv
    unfold HomePage.getProductCount
    cases h : cenv.productsCount with
    | ok n => exact ⟨n, by simp [h]⟩
    | error e => exact ⟨0, by simp [h]⟩
  · intro eenv
    unfold LoginPage.getErrorMessage
    cases h : jsCatchBool (eenv.alertVisible Config.TIMEOUTS_SHORT) false with
    | false => exact ⟨none, by simp [h]⟩
    | true =>
      cases ht : eenv.alertText with
      | ok t => exact ⟨t, by simp [h, ht]⟩
      | error e => exact ⟨none, by simp [h, ht]⟩

/-- Claim C2, witness: a page where every probe target is absent makes
isVisible report false, getProductCount report 0, and getErrorMessage
report null. -/
theorem claim_C2_witness :
    BasePage.isVisible noElementVis "text" "cart" = Except.ok false
  ∧ HomePage.getProductCount failingCount = Except.ok 0
  ∧ LoginPage.getErrorMessage noAlertEnv = Except.ok none :=
  ⟨claim_C2.1 noElementVis "text" "cart" (Or.inl rfl) (Or.inl rfl) (Or.inl rfl),
   claim_C2.2.1 failingCount (Or.inr ⟨⟨"locator.count: page closed"⟩, rfl⟩),
   claim_C2.2.2.1 noAlertEnv (Or.inl rfl)⟩

/-- Claim C3: constructing a BasePage (or a derived LoginPage / HomePage)
with a missing page handle raises the initialization error; with a
present handle it succeeds and stores exactly that handle; and a
successful construction implies a handle was supplied. -/
theorem claim_C3 :
    (BasePage.mkObj none =
       Except.error ⟨"Page object is required to initialize BasePage"⟩)
  ∧ (∀ p : PageHandle,
       BasePage.mkObj (some p) = Except.ok ⟨p⟩
       ∧ LoginPage.mkObj (some p) = Except.ok ⟨p⟩
       ∧ HomePage.mkObj (some p) = Except.ok ⟨p⟩)
  ∧ (∀ (o : Option PageHandle) (obj : BasePageObj),
       BasePage.mkObj o = Except.ok obj → o = some obj.page)
  ∧ (LoginPage.mkObj none =
       Except.error ⟨"Page object is required to initialize BasePage"⟩)
  ∧ (HomePage.mkObj none =
       Except.error ⟨"Page object is required to initialize BasePage"⟩) := by
  refine ⟨rfl, fun p => ⟨rfl, rfl, rfl⟩, ?_, rfl, rfl⟩
  intro o obj h
  cases o with
  | none => simp [BasePage.mkObj] at h
  | some p =>
    cases obj with
    | mk q =>
      simp [BasePage.mkObj] at h
      simp [h]

/-- Claim C3, witness: construction with a concrete handle succeeds and
stores it, and the stored handle is the supplied one. -/
theorem claim_C3_witness :
    BasePage.mkObj (some ⟨5⟩) = Except.ok ⟨⟨5⟩⟩
  ∧ (some (PageHandle.mk 5) = some ((BasePageObj.mk ⟨5⟩).page)) :=
  ⟨(claim_C3.2.1 ⟨5⟩).1, claim_C3.2.2.1 (some ⟨5⟩) ⟨⟨5⟩⟩ rfl⟩

/-- Fill oracle where the label-based resolution fails and the
placeholder fallback succeeds. -/
def pwFallbackEnv : FillPwPrims :=
  ⟨fun _ _ => Except.error ⟨"label resolution failed"⟩, fun _ _ => Except.ok ()⟩

/-- Fill oracle where both resolution paths fail, with distinct errors. -/
def pwBothFailEnv : FillPwPrims :=
  ⟨fun _ _ => Except.error ⟨"label resolution failed"⟩,
   fun _ _ => Except.error ⟨"placeholder resolution failed"⟩⟩

/-- Claim C4: fillPassword succeeds when the primary label-based fill
succeeds; on primary failure it succeeds when the placeholder fallback
succeeds; and when both fail it raises exactly the fallback's error. -/
theorem claim_C4 (env : FillPwPrims) (nm value : String) :
    (env.labelFill nm value = Except.ok () →
       BasePage.fillPassword env nm value = Except.ok ())
  ∧ (∀ e, env.labelFill nm value = Except.error e →
       env.placeholderFill nm value = Except.ok () →
       BasePage.fillPassword env nm value = Except.ok ())
  ∧ (∀ e fe, env.labelFill nm value = Except.error e →
       env.placeholderFill nm value = Except.error fe →
       BasePage.fillPassword env nm value = Except.error fe) := by
  refine ⟨?_, ?_, ?_⟩
  · intro h
    simp [BasePage.fillPassword, h]
  · intro e h1 h2
    simp [BasePage.fillPassword, h1, h2]
  · intro e fe h1 h2
    simp [BasePage.fillPassword, h1, h2]

/-- Claim C4, witness: with the primary path failing the fallback fill
succeeds, and with both paths failing the fallback's error (not the
primary's) is raised. -/
theorem claim_C4_witness :
    BasePage.fillPassword pwFallbackEnv "Password" "secret" = Except.ok ()
  ∧ BasePage.fillPassword pwBothFailEnv "Password" "secret" =
      Except.error ⟨"placeholder resolution failed"⟩ :=
  ⟨(claim_C4 pwFallbackEnv "Password" "secret").2.1 ⟨"label resolution failed"⟩ rfl rfl,
   (claim_C4 pwBothFailEnv "Password" "secret").2.2 ⟨"label resolution failed"⟩
     ⟨"placeholder resolution failed"⟩ rfl rfl⟩

/-- Login oracle where the password fill fails and the other steps would
succeed. -/
def loginPwFailEnv : LoginPrims :=
  ⟨fun _ => Except.ok (), fun _ => Except.error ⟨"password field missing"⟩, Except.ok ()⟩

/-- Claim C5: login runs enterEmail, enterPassword, clickLoginButton in
exactly that order; a failing step stops the remaining steps and its
error is propagated unchanged; no step is retried (each executed step
appears once in the trace) and the effects of completed steps persist
(a filled field stays filled in the failure state). -/
theorem claim_C5 (env : LoginPrims) (email password : String) (s : LoginState) :
    (∀ e, env.emailFill email = Except.error e →
       LoginPage.login env email password s =
         (Except.error e, s, [LoginStep.enterEmail]))
  ∧ (∀ e, env.emailFill email = Except.ok () → env.passwordFill password = Except.error e →
       LoginPage.login env email password s =
         (Except.error e, ⟨some email, s.passwordField⟩,
           [LoginStep.enterEmail, LoginStep.enterPassword]))
  ∧ (∀ e, env.emailFill email = Except.ok () → env.passwordFill password = Except.ok () →
       env.loginClick = Except.error e →
       LoginPage.login env email password s =
         (Except.error e, ⟨some email, some password⟩,
           [LoginStep.enterEmail, LoginStep.enterPassword, LoginStep.clickLoginButton]))
  ∧ (env.emailFill email = Except.ok () → env.passwordFill password = Except.ok () →
       env.loginClick = Except.ok () →
       LoginPage.login env email password s =
         (Except.ok (), ⟨some email, some password⟩,
           [LoginStep.enterEmail, LoginStep.enterPassword, LoginStep.clickLoginButton])) := by
  refine ⟨?_, ?_, ?_, ?_⟩
  · intro e h1
    simp [LoginPage.login, LoginPage.enterEmail, h1]
  · intro e h1 h2
    simp [LoginPage.login, LoginPage.enterEmail, LoginPage.enterPassword, h1, h2]
  · intro e h1 h2 h3
    simp [LoginPage.login, LoginPage.enterEmail, LoginPage.enterPassword,
      LoginPage.clickLoginButton, h1, h2, h3]
  · intro h1 h2 h3
    simp [LoginPage.login, LoginPage.enterEmail, LoginPage.enterPassword,
      LoginPage.clickLoginButton, h1, h2, h3]

/-- Claim C5, witness: with a concrete oracle whose password fill fails,
login aborts after the second step, reports that step's error, and the
already-filled email field keeps its value. -/
theorem claim_C5_witness :
    LoginPage.login loginPwFailEnv "user@example.com" "pw" ⟨none, none⟩ =
      (Except.error ⟨"password field missing"⟩, ⟨some "user@example.com", none⟩,
        [LoginStep.enterEmail, LoginStep.enterPassword]) :=
  (claim_C5 loginPwFailEnv "user@example.com" "pw" ⟨none, none⟩).2.1
    ⟨"password field missing"⟩ rfl rfl

/-- Alert oracle whose visible error element carries a whitespace-only
text of positive length. -/
def blankAlertEnv : ErrAlertPrims :=
  ⟨fun _ => Except.ok true, Except.ok (some " ")⟩

/-- Alert oracle whose visible error element carries a real message. -/
def invalidCredsAlertEnv : ErrAlertPrims :=
  ⟨fun _ => Except.ok true, Except.ok (some "Invalid credentials")⟩

/-- Claim C6, counterexample.  The claim says isErrorDisplayed returns
true whenever getErrorMessage yields any string of length greater than
zero; on a page whose error element carries the one-character
whitespace string, getErrorMessage yields that string (length 1) yet
isErrorDisplayed returns false, because the code additionally requires
a positive length after trimming. -/
theorem claim_C6_counterexample :
    LoginPage.getErrorMessage blankAlertEnv = Except.ok (some " ")
  ∧ 0 < (" ").length
  ∧ LoginPage.isErrorDisplayed blankAlertEnv = Except.ok false := by
  refine ⟨rfl, by decide, rfl⟩

/-- Claim C6, amended: isErrorDisplayed returns true exactly when
getErrorMessage returns a string with a non-empty whitespace-trimmed
content, and returns false when getErrorMessage returns null. -/
theorem claim_C6_amended (env : ErrAlertPrims) :
    (LoginPage.isErrorDisplayed env = Except.ok true ↔
       ∃ s, LoginPage.getErrorMessage env = Except.ok (some s) ∧ 0 < (jsTrim s).length)
  ∧ (LoginPage.getErrorMessage env = Except.ok none →
       LoginPage.isErrorDisplayed env = Except.ok false) := by
  constructor
  · unfold LoginPage.isErrorDisplayed
    cases h : LoginPage.getErrorMessage env with
    | ok m =>
      cases m with
      | none => simp
      | some s => simp
    | error e => simp
  · intro h
    unfold LoginPage.isErrorDisplayed
    rw [h]

/-- Claim C6 amended, witness: a visible alert with a real message makes
isErrorDisplayed report true. -/
theorem claim_C6_amended_witness :
    LoginPage.isErrorDisplayed invalidCredsAlertEnv = Except.ok true :=
  (claim_C6_amended invalidCredsAlertEnv).1.mpr
    ⟨"Invalid credentials", rfl, by decide⟩

/-- Cart oracle where the product click succeeds but no add-to-cart
button becomes visible. -/
def noAddBtnEnv : CartPrims :=
  ⟨fun _ _ => Except.ok (), fun _ => Except.ok false, fun _ => Except.ok ()⟩

/-- Claim C7: when the product click succeeds and the add-to-cart button
does not become visible within the element timeout (not-visible result
or a caught probe failure), addProductToCart logs a warning and returns
without error; and it raises an error exactly when the product click
fails or the click on a visible button fails. -/
theorem claim_C7 (env : CartPrims) (productName : String) :
    (env.productClick productName Config.TIMEOUTS_ELEMENT = Except.ok () →
       jsCatchBool (env.addBtnVisible Config.TIMEOUTS_ELEMENT) false = false →
       HomePage.addProductToCart env productName =
         (Except.ok (),
           [⟨LogLevel.info, "Adding product to cart: " ++ productName⟩,
            ⟨LogLevel.warn, "Add to cart button not found for: " ++ productName⟩]))
  ∧ ((∃ e, (HomePage.addProductToCart env productName).1 = Except.error e) ↔
       ((∃ e, env.productClick productName Config.TIMEOUTS_ELEMENT = Except.error e)
         ∨ (env.addBtnVisible Config.TIMEOUTS_ELEMENT = Except.ok true
             ∧ ∃ e, env.addBtnClick Config.TIMEOUTS_ELEMENT = Except.error e))) := by
  constructor
  · intro h1 h2
    simp [HomePage.addProductToCart, HomePage.clickProduct, h1, h2]
  · cases hp : env.productClick productName Config.TIMEOUTS_ELEMENT with
    | error e =>
      simp [HomePage.addProductToCart, HomePage.clickProduct, hp]
    | ok u =>
      cases hv : env.addBtnVisible Config.TIMEOUTS_ELEMENT with
      | error e2 =>
        simp [HomePage.addProductToCart, HomePage.clickProduct, jsCatchBool, hp, hv]
      | ok b =>
        cases b with
        | false =>
          simp [HomePage.addProductToCart, HomePage.clickProduct, jsCatchBool, hp, hv]
        | true =>
          cases hc : env.addBtnClick Config.TIMEOUTS_ELEMENT with
          | error e3 =>
            simp [HomePage.addProductToCart, HomePage.clickProduct, jsCatchBool,
              hp, hv, hc]
          | ok u2 =>
            simp [HomePage.addProductToCart, HomePage.clickProduct, jsCatchBool,
              hp, hv, hc]

/-- Claim C7, witness: with the product click succeeding and the button
absent, the method returns normally and logs the warning. -/
theorem claim_C7_witness :
    HomePage.addProductToCart noAddBtnEnv "shirt" =
      (Except.ok (),
        [⟨LogLevel.info, "Adding product to cart: " ++ "shirt"⟩,
         ⟨LogLevel.warn, "Add to cart button not found for: " ++ "shirt"⟩]) :=
  (claim_C7 noAddBtnEnv "shirt").1 rfl rfl

/-- Fixture oracle of an already-authenticated session: navigation
succeeds and the login form is not visible. -/
def alreadyAuthEnv : FixturePrims :=
  ⟨Except.ok (), false, Except.ok (), true⟩

/-- Fixture oracle where the login flow runs and verification succeeds. -/
def fullLoginEnv : FixturePrims :=
  ⟨Except.ok (), true, Except.ok (), true⟩

/-- Fixture oracle where the login flow runs but verification fails. -/
def verifyFailEnv : FixturePrims :=
  ⟨Except.ok (), true, Except.ok (), false⟩

/-- Claim C8: the authenticatedPage fixture navigates first; with the
login form not visible it performs no login and yields directly; with
the form visible and login succeeding it raises the setup error exactly
when verification returns false; and every yielded bundle carries the
page handle together with HomePage and LoginPage objects bound to that
same handle. -/
theorem claim_C8 (env : FixturePrims) (page : PageHandle) :
    (env.navigateToLogin = Except.ok () → env.loginFormDisplayed = false →
       fixtures.authenticatedPage env page =
         (Except.ok ⟨page, ⟨page⟩, ⟨page⟩⟩,
           [FixtureStep.navigate, FixtureStep.checkLoginForm]))
  ∧ (env.navigateToLogin = Except.ok () → env.loginFormDisplayed = true →
       env.loginFlow = Except.ok () →
       ((fixtures.authenticatedPage env page).1 =
            Except.error ⟨"Login verification failed"⟩
          ↔ env.verifyLoginSuccess = false))
  ∧ (env.navigateToLogin = Except.ok () → env.loginFormDisplayed = true →
       env.loginFlow = Except.ok () → env.verifyLoginSuccess = true →
       fixtures.authenticatedPage env page =
         (Except.ok ⟨page, ⟨page⟩, ⟨page⟩⟩,
           [FixtureStep.navigate, FixtureStep.checkLoginForm,
             FixtureStep.performLogin, FixtureStep.verify]))
  ∧ (∀ (b : AuthBundle) (steps : List FixtureStep),
       fixtures.authenticatedPage env page = (Except.ok b, steps) →
       b.page = page ∧ b.homePage.page = page ∧ b.loginPage.page = page) := by
  refine ⟨?_, ?_, ?_, ?_⟩
  · intro h1 h2
    simp [fixtures.authenticatedPage, LoginPage.mkObj, HomePage.mkObj, BasePage.mkObj,
      h1, h2]
  · intro h1 h2 h3
    cases hv : env.verifyLoginSuccess with
    | false =>
      simp [fixtures.authenticatedPage, LoginPage.mkObj, HomePage.mkObj, BasePage.mkObj,
        h1, h2, h3, hv]
    | true =>
      simp [fixtures.authenticatedPage, LoginPage.mkObj, HomePage.mkObj, BasePage.mkObj,
        h1, h2, h3, hv]
  · intro h1 h2 h3 h4
    simp [fixtures.authenticatedPage, LoginPage.mkObj, HomePage.mkObj, BasePage.mkObj,
      h1, h2, h3, h4]
  · intro b steps h
    have hb : b = ⟨page, ⟨page⟩, ⟨page⟩⟩ := by
      cases hn : env.navigateToLogin with
      | error e =>
        simp [fixtures.authenticatedPage, LoginPage.mkObj, HomePage.mkObj,
          BasePage.mkObj, hn] at h
      | ok u =>
        by_cases hf : env.loginFormDisplayed = true
        · cases hl : env.loginFlow with
          | error e =>
            simp [fixtures.authenticatedPage, LoginPage.mkObj, HomePage.mkObj,
              BasePage.mkObj, hn, hf, hl] at h
          | ok u2 =>
            by_cases hv : env.verifyLoginSuccess = true
            · simp [fixtures.authenticatedPage, LoginPage.mkObj, HomePage.mkObj,
                BasePage.mkObj, hn, hf, hl, hv] at h
              exact h.1.symm
            · simp [fixtures.authenticatedPage, LoginPage.mkObj, HomePage.mkObj,
                BasePage.mkObj, hn, hf, hl, hv] at h
        · simp [fixtures.authenticatedPage, LoginPage.mkObj, HomePage.mkObj,
            BasePage.mkObj, hn, hf] at h
          exact h.1.symm
    rw [hb]
    exact ⟨rfl, rfl, rfl⟩

/-- Claim C8, witness: the skip-login path, the verification-failure
path, and the full-login path at a concrete page handle. -/
theorem claim_C8_witness :
    fixtures.authenticatedPage alreadyAuthEnv ⟨1⟩ =
      (Except.ok ⟨⟨1⟩, ⟨⟨1⟩⟩, ⟨⟨1⟩⟩⟩, [FixtureStep.navigate, FixtureStep.checkLoginForm])
  ∧ (fixtures.authenticatedPage verifyFailEnv ⟨1⟩).1 =
      Except.error ⟨"Login verification failed"⟩
  ∧ fixtures.authenticatedPage fullLoginEnv ⟨1⟩ =
      (Except.ok ⟨⟨1⟩, ⟨⟨1⟩⟩, ⟨⟨1⟩⟩⟩,
        [FixtureStep.navigate, FixtureStep.checkLoginForm,
          FixtureStep.performLogin, FixtureStep.verify]) :=
  ⟨(claim_C8 alreadyAuthEnv ⟨1⟩).1 rfl rfl,
   ((claim_C8 verifyFailEnv ⟨1⟩).2.1 rfl rfl rfl).mpr rfl,
   (claim_C8 fullLoginEnv ⟨1⟩).2.2.1 rfl rfl rfl rfl⟩

/-- Click oracle that fails exactly when the timeout handed to it is
zero, distinguishing a passed-through zero from the default. -/
def zeroSensitiveClicks : ClickPrims :=
  ⟨fun _ _ t => if t = 0 then Except.error ⟨"zero timeout"⟩ else Except.ok (),
   fun _ t => if t = 0 then Except.error ⟨"zero timeout"⟩ else Except.ok (),
   fun _ t => if t = 0 then Except.error ⟨"zero timeout"⟩ else Except.ok ()⟩

/-- Claim C9, counterexample.  The claim says a timeout override of 0 is
replaced by the ELEMENT default in the click methods, so a caller
cannot request a zero timeout; but the click call spreads the caller's
options after the computed timeout, so an explicit 0 is passed through:
the effective click timeout for an explicit 0 is 0 (not 3000), and a
click oracle sensitive to a zero timeout behaves differently under an
explicit 0 than under the default. -/
theorem claim_C9_counterexample :
    BasePage.clickTimeout ⟨some 0⟩ = 0
  ∧ BasePage.clickTimeout ⟨none⟩ = Config.TIMEOUTS_ELEMENT
  ∧ BasePage.clickByRole zeroSensitiveClicks "button" "submit" ⟨some 0⟩ =
      Except.error ⟨"zero timeout"⟩
  ∧ BasePage.clickByRole zeroSensitiveClicks "button" "submit" ⟨none⟩ = Except.ok ()
  ∧ BasePage.clickByText zeroSensitiveClicks "submit" ⟨some 0⟩ =
      Except.error ⟨"zero timeout"⟩
  ∧ BasePage.clickByTestId zeroSensitiveClicks "btn" ⟨some 0⟩ =
      Except.error ⟨"zero timeout"⟩ :=
  ⟨rfl, rfl, rfl, rfl, rfl, rfl⟩

/-- Claim C9, amended: in goto the or-operator default makes a zero (or
absent) timeout override fall back to the NAVIGATION tier, so a caller
cannot request a zero navigation timeout; in the click methods the same
or-operator default is computed, but the spread of the caller's options
re-applies the caller's timeout property, so an explicit timeout —
including 0 — reaches the click unchanged and only an absent timeout
falls back to the ELEMENT tier. -/
theorem claim_C9_amended :
    (∀ (env : NavPrims) (url : String),
       BasePage.goto env url ⟨some 0⟩ = BasePage.goto env url ⟨none⟩)
  ∧ BasePage.gotoTimeout ⟨some 0⟩ = Config.TIMEOUTS_NAVIGATION
  ∧ BasePage.gotoTimeout ⟨none⟩ = Config.TIMEOUTS_NAVIGATION
  ∧ (∀ t, t ≠ 0 → BasePage.gotoTimeout ⟨some t⟩ = t)
  ∧ (∀ t, BasePage.clickTimeout ⟨some t⟩ = t)
  ∧ BasePage.clickTimeout ⟨none⟩ = Config.TIMEOUTS_ELEMENT
  ∧ (∀ (env : ClickPrims) (role nm : String) (options : CallOptions),
       BasePage.clickByRole env role nm options =
         match env.roleClick role nm (BasePage.clickTimeout options) with
         | .ok _ => Except.ok ()
         | .error e => Except.error e)
  ∧ (∀ (env : ClickPrims) (text : String) (options : CallOptions),
       BasePage.clickByText env text options =
         match env.textClick text (BasePage.clickTimeout options) with
         | .ok _ => Except.ok ()
         | .error e => Except.error e)
  ∧ (∀ (env : ClickPrims) (testId : String) (options : CallOptions),
       BasePage.clickByTestId env testId options =
         match env.testIdClick testId (BasePage.clickTimeout options) with
         | .ok _ => Except.ok ()
         | .error e => Except.error e) := by
  refine ⟨fun env url => rfl, rfl, rfl, ?_, fun t => rfl, rfl,
    fun env role nm options => rfl, fun env text options => rfl,
    fun env testId options => rfl⟩
  intro t ht
  simp [BasePage.gotoTimeout, jsOrTimeout, ht]

/-- Claim C9 amended, witness: a nonzero override is preserved by both
timeout computations, and goto behaves identically under an explicit 0
and an absent override. -/
theorem claim_C9_amended_witness :
    BasePage.gotoTimeout ⟨some 7⟩ = 7
  ∧ BasePage.clickTimeout ⟨some 7⟩ = 7
  ∧ BasePage.goto ⟨fun _ _ => Except.ok none⟩ "https://example.com" ⟨some 0⟩ =
      BasePage.goto ⟨fun _ _ => Except.ok none⟩ "https://example.com" ⟨none⟩ :=
  ⟨claim_C9_amended.2.2.2.1 7 (by decide),
   claim_C9_amended.2.2.2.2.1 7,
   claim_C9_amended.1 ⟨fun _ _ => Except.ok none⟩ "https://example.com"⟩

/-- Wait oracle on which every wait for visibility would succeed. -/
def idleWait : WaitPrims :=
  ⟨fun _ _ => Except.ok (), fun _ _ => Except.ok (), fun _ _ => Except.ok ()⟩

/-- Claim C10: on a locator kind outside role / text / testId,
waitForVisibility raises the unknown-locator-type error to the caller
(rethrown by its catch), while isVisible swallows the same error in its
tolerant catch and returns false — the two methods treat the unknown
kind asymmetrically. -/
theorem claim_C10 (wenv : WaitPrims) (venv : VisPrims) (lt lv : String) (timeout : Nat)
    (h1 : lt ≠ "role") (h2 : lt ≠ "text") (h3 : lt ≠ "testId") :
    BasePage.waitForVisibility wenv lt lv timeout =
      Except.error ⟨"Unknown locator type: " ++ lt⟩
  ∧ BasePage.isVisible venv lt lv = Except.ok false := by
  constructor
  · unfold BasePage.waitForVisibility
    simp [h1, h2, h3]
  · unfold BasePage.isVisible
    simp [h1, h2, h3]

/-- Claim C10, witness at a concrete unknown locator kind. -/
theorem claim_C10_witness :
    BasePage.waitForVisibility idleWait "css" "btn" 3000 =
      Except.error ⟨"Unknown locator type: " ++ "css"⟩
  ∧ BasePage.isVisible noElementVis "css" "btn" = Except.ok false :=
  claim_C10 idleWait noElementVis "css" "btn" 3000 (by decide) (by decide) (by decide)

end PW
